import Mathlib

/-
Verification of the slack-crawl gateway: a shallow embedding of its
identity cache, team resolver, link builder, message normalizer, thread
flattener and channel crawler, with theorems settling the spec claims.

The JavaScript source consists of near-duplicate endpoint variants:
  index.js            the fixed-token server (structured /crawl/:channelId output)
  part_001            the token-per-request server (string /crawl output, multi channel)
  part_002 (first)    a fixed-token server with string /crawl/:channelId output
  part_002 (second)   a fixed-token server whose fetchThreadReplies returns
                      structured reply objects and does not filter the parent

Asynchronous upstream calls are modelled as oracle functions passed in as
arguments; a call that may reject is an Except value, a users.info call is a
LookupResult.  The cooperative (Promise.all) fan-out joins results in input
order, so it is embedded as a sequential left-to-right traversal threading
the shared mutable state (user cache, team memo) in input order.
-/

namespace SlackCrawl

/- ===== Data model ===== -/

/-- Normalized user profile, as built by the users.info handlers
(fields id, name, real_name, display_name, email, avatar, is_bot,
is_admin, team_id).  Optional JS fields that can be null are Options. -/
structure UserProfile where
  id : String
  name : String
  real_name : String
  display_name : String
  email : Option String
  avatar : Option String
  is_bot : Bool
  is_admin : Bool
  team_id : Option String
  deriving DecidableEq

/-- Raw user object as returned by the upstream users.info call.  String
fields that JS leaves undefined or empty are modelled as the empty string,
which is exactly the falsy case of the JS or-operator on strings. -/
structure SlackUser where
  id : String
  name : String
  real_name : String
  profile_display_name : String
  profile_email : String
  profile_image_192 : String
  is_bot : Bool
  is_admin : Bool
  team_id : String
  deriving DecidableEq

/-- JS a or-else b on strings: the empty string is the falsy case. -/
def jsOr (a b : String) : String := if a = "" then b else a

/-- JS s or-else null, as used for email and avatar fields. -/
def strOrNull (s : String) : Option String := if s = "" then none else some s

/-- Profile construction done inline at every users.info success site:
display_name falls back to real_name, email and image_192 fall back to
null, is_admin falls back to false (identity on Bool here). -/
def mkUserProfile (u : SlackUser) : UserProfile :=
  { id := u.id
    name := u.name
    real_name := u.real_name
    display_name := jsOr u.profile_display_name u.real_name
    email := strOrNull u.profile_email
    avatar := strOrNull u.profile_image_192
    is_bot := u.is_bot
    is_admin := u.is_admin
    team_id := some u.team_id }

/-- The fallback profile built when no user info could be resolved. -/
def fallbackProfile (uid : String) : UserProfile :=
  { id := uid
    name := "Unknown"
    real_name := "Unknown"
    display_name := "Unknown"
    email := none
    avatar := none
    is_bot := false
    is_admin := false
    team_id := none }

/-- Outcome of one upstream users.info call: resolves with ok true and a
user object, resolves with ok false, or rejects (the promise throws). -/
inductive LookupResult where
  | ok (u : SlackUser)
  | notOk (e : String)
  | threw (e : String)
  deriving DecidableEq

/-- The in-memory user cache (a JS Map from user id to profile).  Newest
binding first; List.lookup returns the most recent one, which matches the
overwrite semantics of Map.prototype.set. -/
abbrev Cache := List (String × UserProfile)

/-- Map.prototype.set: bind the key to the value, shadowing older entries. -/
def cacheSet (k : String) (v : UserProfile) (c : Cache) : Cache := (k, v) :: c

/-- The per-message user resolution block repeated in every crawl handler:

    let userInfo = userCache.get(msg.user);
    if (!userInfo && msg.user) {
      try {
        const userResult = await slack.users.info({ user: msg.user });
        if (userResult.ok) { build profile; userCache.set(user.id, userInfo); }
      } catch (error) { console.error(...); }
    }
    if (!userInfo) { userInfo = fallback; }

Returns the resolved profile, the cache afterwards, and how many upstream
users.info calls were issued (0 or 1). -/
def resolveUser (upstream : String → LookupResult) (cache : Cache) (uid : String) :
    UserProfile × Cache × Nat :=
  match List.lookup uid cache with
  | some info => (info, cache, 0)
  | none =>
    if uid = "" then (fallbackProfile uid, cache, 0)
    else
      match upstream uid with
      | .ok u => (mkUserProfile u, cacheSet u.id (mkUserProfile u) cache, 1)
      | .notOk _ => (fallbackProfile uid, cache, 1)
      | .threw _ => (fallbackProfile uid, cache, 1)

/- ===== Claims C2 and C3: identity cache ===== -/

/-- C2: when the cache misses and the upstream users.info call fails
(rejects or resolves with ok false), the resolution yields the fallback
profile for that id (names Unknown, optional fields null) and leaves the
cache exactly as it was: the fallback is not stored. -/
theorem resolveUser_failure_gives_uncached_fallback
    (upstream : String → LookupResult) (cache : Cache) (uid : String) (e : String)
    (hmiss : List.lookup uid cache = none) (hu : uid ≠ "")
    (hfail : upstream uid = .threw e ∨ upstream uid = .notOk e) :
    (resolveUser upstream cache uid).1.id = uid ∧
    (resolveUser upstream cache uid).1.name = "Unknown" ∧
    (resolveUser upstream cache uid).1.real_name = "Unknown" ∧
    (resolveUser upstream cache uid).1.display_name = "Unknown" ∧
    (resolveUser upstream cache uid).1.email = none ∧
    (resolveUser upstream cache uid).1.avatar = none ∧
    (resolveUser upstream cache uid).1.team_id = none ∧
    (resolveUser upstream cache uid).2.1 = cache := by
  rcases hfail with hfail | hfail <;>
    simp [resolveUser, hmiss, hu, hfail, fallbackProfile]

/-- C2 witness: a concrete failing lookup on an empty cache. -/
theorem resolveUser_failure_gives_uncached_fallback_witness :
    (resolveUser (fun _ => .threw "network down") [] "U42").1.name = "Unknown" ∧
    (resolveUser (fun _ => .threw "network down") [] "U42").2.1 = [] := by
  have h := resolveUser_failure_gives_uncached_fallback
    (fun _ => .threw "network down") [] "U42" "network down"
    (by decide) (by decide) (Or.inl rfl)
  exact ⟨h.2.1, h.2.2.2.2.2.2.2⟩

/-- C3: a successful first resolution stores the profile in the cache under
the user id, and a second resolution of the same id returns the cached
profile with zero upstream calls, whatever the upstream now does.
The hypothesis hid reflects the upstream contract that users.info returns
the user that was asked for (the code caches under the returned id). -/
theorem resolveUser_second_resolution_hits_cache
    (upstream : String → LookupResult) (cache : Cache) (uid : String) (u : SlackUser)
    (hmiss : List.lookup uid cache = none) (hu : uid ≠ "")
    (hok : upstream uid = .ok u) (hid : u.id = uid) :
    List.lookup uid (resolveUser upstream cache uid).2.1 = some (mkUserProfile u) ∧
    (resolveUser upstream cache uid).1 = mkUserProfile u ∧
    (resolveUser upstream cache uid).2.2 = 1 ∧
    ∀ upstream2 : String → LookupResult,
      resolveUser upstream2 (resolveUser upstream cache uid).2.1 uid =
        (mkUserProfile u, (resolveUser upstream cache uid).2.1, 0) := by
  have hres : resolveUser upstream cache uid =
      (mkUserProfile u, cacheSet u.id (mkUserProfile u) cache, 1) := by
    simp [resolveUser, hmiss, hu, hok]
  have hlook : List.lookup uid (cacheSet u.id (mkUserProfile u) cache) =
      some (mkUserProfile u) := by
    simp [cacheSet, List.lookup, hid]
  refine ⟨by rw [hres]; exact hlook, by rw [hres], by rw [hres], ?_⟩
  intro upstream2
  rw [hres]
  simp only [resolveUser, hlook]

/-- C3 witness: resolve a concrete user twice; the second pass reads the
cache even though the upstream would now fail. -/
theorem resolveUser_second_resolution_hits_cache_witness :
    resolveUser (fun _ => .threw "offline")
        (resolveUser (fun _ => .ok ⟨"U7", "alice", "Alice L", "ali", "", "", false, false, "T1"⟩)
          [] "U7").2.1 "U7" =
      (mkUserProfile ⟨"U7", "alice", "Alice L", "ali", "", "", false, false, "T1"⟩,
       (resolveUser (fun _ => .ok ⟨"U7", "alice", "Alice L", "ali", "", "", false, false, "T1"⟩)
          [] "U7").2.1, 0) := by
  exact (resolveUser_second_resolution_hits_cache
    (fun _ => .ok ⟨"U7", "alice", "Alice L", "ali", "", "", false, false, "T1"⟩)
    [] "U7" ⟨"U7", "alice", "Alice L", "ali", "", "", false, false, "T1"⟩
    (by decide) (by decide) rfl rfl).2.2.2 (fun _ => .threw "offline")

/- ===== Team resolver ===== -/

/-- Memoized workspace identity, fields id and domain. -/
structure TeamInfo where
  id : String
  domain : String
  deriving DecidableEq

/-- Relevant fields of the auth.test response.  The team_domain field can
be absent (empty string models the falsy case), in which case the code
falls back to the team field. -/
structure AuthTestResult where
  team_id : String
  team_domain : String
  team : String
  deriving DecidableEq

/-- getTeamInfo: returns the memo if set, otherwise issues one auth.test
call; on success it stores and returns the TeamInfo, on failure it returns
null and leaves the memo empty.  Result is (returned value, memo
afterwards, number of auth.test calls issued). -/
def getTeamInfo (authTest : Except String AuthTestResult) (memo : Option TeamInfo) :
    Option TeamInfo × Option TeamInfo × Nat :=
  match memo with
  | some t => (some t, some t, 0)
  | none =>
    match authTest with
    | .ok r =>
      (some ⟨r.team_id, jsOr r.team_domain r.team⟩,
       some ⟨r.team_id, jsOr r.team_domain r.team⟩, 1)
    | .error _ => (none, none, 1)

/-- The caller line: const workspaceName = team?.domain or-else empty. -/
def workspaceNameOf (team : Option TeamInfo) : String :=
  match team with
  | some t => jsOr t.domain ""
  | none => ""

/- ===== Link builder ===== -/

/-- JS String.prototype.replace with a plain string pattern removes only
the first occurrence; this is msg.ts.replace of the dot by nothing. -/
def removeFirstDot : List Char → List Char
  | [] => []
  | c :: cs => if c = '.' then cs else c :: removeFirstDot cs

/-- The deep-link interpolation used at every link site:
https colon-slash-slash domain .slack.com/archives/ channel /p digits. -/
def buildLink (domain channelId ts : String) : String :=
  "https://" ++ domain ++ ".slack.com/archives/" ++ channelId ++ "/p" ++
    String.mk (removeFirstDot ts.data)

theorem removeFirstDot_append (a b : List Char) (ha : '.' ∉ a) :
    removeFirstDot (a ++ '.' :: b) = a ++ b := by
  induction a with
  | nil => simp [removeFirstDot]
  | cons c cs ih =>
    have hc : c ≠ '.' := fun h => ha (h ▸ List.mem_cons_self c cs)
    simp only [List.cons_append, removeFirstDot, if_neg hc, List.append_eq]
    rw [ih (fun h => ha (List.mem_cons_of_mem c h))]

theorem removeFirstDot_of_not_mem (a : List Char) (ha : '.' ∉ a) :
    removeFirstDot a = a := by
  induction a with
  | nil => rfl
  | cons c cs ih =>
    have hc : c ≠ '.' := fun h => ha (h ▸ List.mem_cons_self c cs)
    simp only [removeFirstDot, if_neg hc]
    rw [ih (fun h => ha (List.mem_cons_of_mem c h))]

/- ===== Claim C5: link builder ===== -/

/-- C5: buildLink is total by construction; on a timestamp with a decimal
point it drops that point and interpolates the canonical archive URL, and
on a dotless timestamp it interpolates the timestamp unchanged. -/
theorem buildLink_drops_decimal_point (domain ch : String) :
    (∀ a b : List Char, '.' ∉ a →
      buildLink domain ch (String.mk (a ++ '.' :: b)) =
        "https://" ++ domain ++ ".slack.com/archives/" ++ ch ++ "/p" ++
          String.mk (a ++ b)) ∧
    (∀ ts : String, '.' ∉ ts.data →
      buildLink domain ch ts =
        "https://" ++ domain ++ ".slack.com/archives/" ++ ch ++ "/p" ++ ts) := by
  constructor
  · intro a b ha
    simp [buildLink, removeFirstDot_append a b ha]
  · intro ts hts
    have : String.mk (removeFirstDot ts.data) = ts := by
      rw [removeFirstDot_of_not_mem ts.data hts]
    simp [buildLink, this]

/-- C5 witness: the concrete example from the spec. -/
theorem buildLink_drops_decimal_point_witness :
    buildLink "acme" "C123" "1234567890.000200" =
      "https://acme.slack.com/archives/C123/p1234567890000200" := by
  have h := (buildLink_drops_decimal_point "acme" "C123").1
    "1234567890".data "000200".data (by decide)
  have e1 : String.mk ("1234567890".data ++ '.' :: "000200".data) =
      "1234567890.000200" := by decide
  rw [e1] at h
  rw [h]
  decide

/- ===== Claim C7: team resolver memoization ===== -/

/-- C7: the first getTeamInfo call issues one auth.test call and memoizes
the TeamInfo on success; every later call returns the memo with zero
upstream calls; a failing first call returns null with the memo still
empty; and the caller turns a null team into the empty workspace name. -/
theorem getTeamInfo_memoizes :
    (∀ r : AuthTestResult,
      getTeamInfo (.ok r) none =
        (some ⟨r.team_id, jsOr r.team_domain r.team⟩,
         some ⟨r.team_id, jsOr r.team_domain r.team⟩, 1)) ∧
    (∀ (authTest : Except String AuthTestResult) (t : TeamInfo),
      getTeamInfo authTest (some t) = (some t, some t, 0)) ∧
    (∀ e : String, getTeamInfo (.error e) none = (none, none, 1)) ∧
    workspaceNameOf none = "" := by
  refine ⟨fun r => rfl, fun authTest t => rfl, fun e => rfl, rfl⟩

/- ===== Messages and thread flattening ===== -/

/-- Raw upstream message (conversations.history or conversations.replies).
Absent string fields are the empty string; reply_count absent is 0. -/
structure RawMessage where
  user : String
  text : String
  ts : String
  reply_count : Nat
  subtype : String
  thread_ts : String
  deriving DecidableEq

/-- userInfo.display_name or-else userInfo.real_name or-else userInfo.name,
the author line used everywhere. -/
def displayNameOf (p : UserProfile) : String :=
  jsOr (jsOr p.display_name p.real_name) p.name

/-- The upstream API as oracles: users.info keyed by user id,
conversations.replies keyed by channel and thread root timestamp,
conversations.history keyed by channel.  An Except.error models a
rejected promise. -/
structure Upstream where
  usersInfo : String → LookupResult
  repliesResult : String × String → Except String (List RawMessage)
  history : String → Except String (List RawMessage)

/-- Shared mutable server state: the user cache and the team memo. -/
structure ServerState where
  cache : Cache
  teamInfo : Option TeamInfo

/-- Reply record of the part_001 fetchThreadReplies (no slack_link). -/
structure ReplyP1 where
  user_name : String
  time : String
  content : String
  deriving DecidableEq

/-- Reply record of the index.js fetchThreadReplies (with slack_link). -/
structure ReplyIdx where
  user_name : String
  time : String
  content : String
  slack_link : String
  deriving DecidableEq

/-- Reply record of the second part_002 fetchThreadReplies variant. -/
structure ReplyV2 where
  user : UserProfile
  text : String
  timestamp : String
  thread_ts : String
  is_thread_reply : Bool
  slack_link : String
  deriving DecidableEq

/-- The for-loop body of the part_001 fetchThreadReplies: resolve the
author of every message, then push a reply record only when the message
timestamp differs from the thread root timestamp.  The time formatter is
abstract: in the source it is Date based and timezone dependent. -/
def repliesLoopP1 (up : Upstream) (fmtTime : String → String) (threadTs : String) :
    Cache → List RawMessage → List ReplyP1 × Cache
  | cache, [] => ([], cache)
  | cache, m :: ms =>
    let r := resolveUser up.usersInfo cache m.user
    let rest := repliesLoopP1 up fmtTime threadTs r.2.1 ms
    if m.ts ≠ threadTs then
      (⟨displayNameOf r.1, fmtTime m.ts, m.text⟩ :: rest.1, rest.2)
    else
      (rest.1, rest.2)

/-- fetchThreadReplies of part_001: a failing conversations.replies call is
caught and yields the empty list with the cache untouched. -/
def fetchThreadRepliesP1 (up : Upstream) (fmtTime : String → String)
    (cache : Cache) (channelId threadTs : String) : List ReplyP1 × Cache :=
  match up.repliesResult (channelId, threadTs) with
  | .error _ => ([], cache)
  | .ok msgs => repliesLoopP1 up fmtTime threadTs cache msgs

/-- The for-loop body of the index.js fetchThreadReplies: same as the
part_001 loop plus the slack_link built from the resolved workspace name. -/
def repliesLoopIdx (up : Upstream) (fmtTime : String → String)
    (workspaceName channelId threadTs : String) :
    Cache → List RawMessage → List ReplyIdx × Cache
  | cache, [] => ([], cache)
  | cache, m :: ms =>
    let r := resolveUser up.usersInfo cache m.user
    let rest := repliesLoopIdx up fmtTime workspaceName channelId threadTs r.2.1 ms
    if m.ts ≠ threadTs then
      (⟨displayNameOf r.1, fmtTime m.ts, m.text,
        buildLink workspaceName channelId m.ts⟩ :: rest.1, rest.2)
    else
      (rest.1, rest.2)

/-- fetchThreadReplies of index.js: fetch the thread, resolve the team for
links, walk the messages; a failing conversations.replies call is caught
and yields the empty list with the state untouched. -/
def fetchThreadRepliesIdx (up : Upstream) (authTest : Except String AuthTestResult)
    (fmtTime : String → String) (st : ServerState) (channelId threadTs : String) :
    List ReplyIdx × ServerState :=
  match up.repliesResult (channelId, threadTs) with
  | .error _ => ([], st)
  | .ok msgs =>
    let team := getTeamInfo authTest st.teamInfo
    let workspaceName := workspaceNameOf team.1
    let r := repliesLoopIdx up fmtTime workspaceName channelId threadTs st.cache msgs
    (r.1, ⟨r.2, team.2.1⟩)

/-- fetchThreadReplies of the second part_002 variant: maps every upstream
message to a structured reply record, reading the cache only (no users.info
call, no cache write) and without filtering out the thread root. -/
def fetchThreadRepliesV2 (repliesOracle : String × String → Except String (List RawMessage))
    (authTest : Except String AuthTestResult) (st : ServerState)
    (channelId threadTs : String) : List ReplyV2 × ServerState :=
  match repliesOracle (channelId, threadTs) with
  | .error _ => ([], st)
  | .ok msgs =>
    let team := getTeamInfo authTest st.teamInfo
    let workspaceName := workspaceNameOf team.1
    (msgs.map (fun m =>
      { user := (List.lookup m.user st.cache).getD (fallbackProfile m.user)
        text := m.text
        timestamp := m.ts
        thread_ts := m.thread_ts
        is_thread_reply := true
        slack_link := buildLink workspaceName channelId m.ts }),
     ⟨st.cache, team.2.1⟩)

/- ===== Per-message normalization ===== -/

/-- Structured output record of the index.js /crawl/:channelId handler.
The replies field is only set when reply_count is positive. -/
structure MessageDataIdx where
  user_name : String
  time : String
  content : String
  slack_link : String
  replies : Option (List ReplyIdx)
  deriving DecidableEq

/-- The per-message mapper of the index.js /crawl/:channelId handler:
resolve the author, format the time, build the link, keep the raw text as
content, and fetch thread replies when reply_count is positive. -/
def processMessageIdx (up : Upstream) (authTest : Except String AuthTestResult)
    (fmtTime : String → String) (st : ServerState) (workspaceName channelId : String)
    (msg : RawMessage) : MessageDataIdx × ServerState :=
  let r := resolveUser up.usersInfo st.cache msg.user
  let st1 : ServerState := ⟨r.2.1, st.teamInfo⟩
  let base : MessageDataIdx :=
    { user_name := displayNameOf r.1
      time := fmtTime msg.ts
      content := msg.text
      slack_link := buildLink workspaceName channelId msg.ts
      replies := none }
  if msg.reply_count > 0 then
    let rep := fetchThreadRepliesIdx up authTest fmtTime st1 channelId msg.ts
    let reps : List ReplyIdx :=
      rep.1.map (fun r2 => ⟨r2.user_name, r2.time, r2.content, r2.slack_link⟩)
    ({ base with replies := some reps }, rep.2)
  else
    (base, st1)

/-- The per-message mapper of the part_001 /crawl handler: resolve the
author, synthesize the channel_join text, format the message as one string
prefixed by the channel id, and append the formatted thread replies when
reply_count is positive. -/
def processMessageStr (up : Upstream) (fmtTime : String → String) (cache : Cache)
    (channelId : String) (msg : RawMessage) : String × Cache :=
  let r := resolveUser up.usersInfo cache msg.user
  let messageText :=
    if msg.subtype = "channel_join" then
      displayNameOf r.1 ++ " has joined the channel"
    else
      msg.text
  let messageString :=
    "[" ++ channelId ++ "] " ++ fmtTime msg.ts ++ " | " ++ displayNameOf r.1 ++
      " | " ++ messageText
  if msg.reply_count > 0 then
    let rep := fetchThreadRepliesP1 up fmtTime r.2.1 channelId msg.ts
    (messageString ++ "\n" ++
      String.intercalate "\n"
        (rep.1.map (fun rp => "        | " ++ rp.time ++ " | " ++ rp.user_name ++
          " | " ++ rp.content)),
     rep.2)
  else
    (messageString, r.2.1)

/- ===== Claim C1: the structured thread flattener keeps the parent ===== -/

/-- Thread root for the C1 evaluation. -/
def c1root : RawMessage :=
  ⟨"U1", "root text", "1700000000.000100", 1, "", "1700000000.000100"⟩

/-- Thread reply for the C1 evaluation. -/
def c1reply : RawMessage :=
  ⟨"U2", "a reply", "1700000000.000200", 0, "", "1700000000.000100"⟩

/-- Upstream conversations.replies oracle for the C1 evaluation: the
thread contains its root message first, as the API returns it. -/
def c1oracle : String × String → Except String (List RawMessage) :=
  fun _ => .ok [c1root, c1reply]

/-- C1: the second part_002 fetchThreadReplies variant does not exclude
the message whose timestamp equals the requested thread root timestamp:
on a thread rooted at 1700000000.000100 whose upstream reply set starts
with that very message, the returned reply list still contains an entry
with that timestamp (marked is_thread_reply), contradicting the claimed
exclusion; the sibling variants do filter it out. -/
theorem fetchThreadRepliesV2_keeps_parent :
    ((fetchThreadRepliesV2 c1oracle (.error "offline") ⟨[], none⟩
        "C123" "1700000000.000100").1.map (fun r => r.timestamp)) =
      ["1700000000.000100", "1700000000.000200"] ∧
    "1700000000.000100" ∈
      ((fetchThreadRepliesV2 c1oracle (.error "offline") ⟨[], none⟩
        "C123" "1700000000.000100").1.map (fun r => r.timestamp)) := by
  constructor <;> decide

/- ===== Claim C8: thread fetch failure degrades to empty replies ===== -/

/-- C8: when the upstream conversations.replies call fails, the index.js
fetchThreadReplies returns the empty list and leaves the state untouched,
and the enclosing per-message normalization of a parent with a positive
reply_count completes with an empty reply list. -/
theorem threadFetchFailure_yields_empty_replies
    (up : Upstream) (authTest : Except String AuthTestResult)
    (fmtTime : String → String) (ch ts e : String)
    (hfail : up.repliesResult (ch, ts) = .error e) :
    (∀ st : ServerState, fetchThreadRepliesIdx up authTest fmtTime st ch ts = ([], st)) ∧
    (∀ (st : ServerState) (w : String) (msg : RawMessage),
      msg.reply_count > 0 → msg.ts = ts →
      (processMessageIdx up authTest fmtTime st w ch msg).1.replies = some []) := by
  constructor
  · intro st
    simp [fetchThreadRepliesIdx, hfail]
  · intro st w msg hr hts
    simp [processMessageIdx, hr, fetchThreadRepliesIdx, hts, hfail]

/-- Fixed upstream for the C8 witness: every call fails. -/
def c8up : Upstream :=
  ⟨fun _ => .notOk "user_not_found", fun _ => .error "boom", fun _ => .error "boom"⟩

/-- C8 witness: a concrete thread fetch failure and a concrete parent
message with two claimed replies. -/
theorem threadFetchFailure_yields_empty_replies_witness :
    fetchThreadRepliesIdx c8up (.error "off") (fun s => s) ⟨[], none⟩ "C1" "11.22" =
      ([], ⟨[], none⟩) ∧
    (processMessageIdx c8up (.error "off") (fun s => s) ⟨[], none⟩ "w" "C1"
      ⟨"U1", "hi", "11.22", 2, "", ""⟩).1.replies = some [] := by
  have h := threadFetchFailure_yields_empty_replies c8up (.error "off")
    (fun s => s) "C1" "11.22" "boom" rfl
  exact ⟨h.1 ⟨[], none⟩, h.2 ⟨[], none⟩ "w" ⟨"U1", "hi", "11.22", 2, "", ""⟩
    (by decide) rfl⟩

/- ===== Claim C6: channel_join text synthesis ===== -/

/-- Fixed upstream for the C6 counterexample: user lookups resolve with ok
false, so the author is the Unknown fallback. -/
def c6up : Upstream :=
  ⟨fun _ => .notOk "user_not_found", fun _ => .error "x", fun _ => .error "x"⟩

/-- A channel_join message whose raw text is not the synthesized line. -/
def c6msg : RawMessage := ⟨"U9", "raw text here", "1.2", 0, "channel_join", ""⟩

/-- C6 counterexample: the structured /crawl/:channelId handler of
index.js outputs the raw text for a channel_join message; its content is
not display_name followed by has joined the channel. -/
theorem processMessageIdx_keeps_raw_text_on_channel_join :
    (processMessageIdx c6up (.error "e") (fun s => s) ⟨[], none⟩ "acme" "C1"
      c6msg).1.content = "raw text here" ∧
    (processMessageIdx c6up (.error "e") (fun s => s) ⟨[], none⟩ "acme" "C1"
      c6msg).1.user_name = "Unknown" ∧
    "raw text here" ≠ "Unknown has joined the channel" := by
  refine ⟨rfl, rfl, by decide⟩

/-- Shape of the part_001 per-message string: the header built from the
channel, the formatted time, the author and the message text, followed by
a reply block that is empty when reply_count is zero. -/
theorem processMessageStr_shape (up : Upstream) (fmtTime : String → String)
    (cache : Cache) (ch : String) (msg : RawMessage) :
    ∃ rest : String, (processMessageStr up fmtTime cache ch msg).1 =
      "[" ++ ch ++ "] " ++ fmtTime msg.ts ++ " | " ++
        displayNameOf (resolveUser up.usersInfo cache msg.user).1 ++ " | " ++
        (if msg.subtype = "channel_join" then
          displayNameOf (resolveUser up.usersInfo cache msg.user).1 ++
            " has joined the channel"
        else msg.text) ++ rest := by
  simp only [processMessageStr]
  by_cases hr : msg.reply_count > 0
  · rw [if_pos hr]
    refine ⟨"\n" ++ String.intercalate "\n"
      ((fetchThreadRepliesP1 up fmtTime
          (resolveUser up.usersInfo cache msg.user).2.1 ch msg.ts).1.map
        (fun rp => "        | " ++ rp.time ++ " | " ++ rp.user_name ++
          " | " ++ rp.content)), ?_⟩
    simp [String.append_assoc]
  · rw [if_neg hr]
    refine ⟨"", ?_⟩
    cases h : (if msg.subtype = "channel_join" then
        displayNameOf (resolveUser up.usersInfo cache msg.user).1 ++
          " has joined the channel"
      else msg.text)
    simp [String.append_assoc]

/-- C6 amended: in the multi-channel /crawl handler (part_001), a message
with subtype channel_join renders its text as display_name has joined the
channel, and its rendering is independent of the raw text; any other
message renders its raw text. -/
theorem processMessageStr_channel_join_spec (up : Upstream)
    (fmtTime : String → String) (cache : Cache) (ch : String) (msg : RawMessage) :
    (msg.subtype = "channel_join" →
      (∀ t : String, processMessageStr up fmtTime cache ch { msg with text := t } =
        processMessageStr up fmtTime cache ch msg) ∧
      ∃ rest : String, (processMessageStr up fmtTime cache ch msg).1 =
        "[" ++ ch ++ "] " ++ fmtTime msg.ts ++ " | " ++
          displayNameOf (resolveUser up.usersInfo cache msg.user).1 ++ " | " ++
          (displayNameOf (resolveUser up.usersInfo cache msg.user).1 ++
            " has joined the channel") ++ rest) ∧
    (msg.subtype ≠ "channel_join" →
      ∃ rest : String, (processMessageStr up fmtTime cache ch msg).1 =
        "[" ++ ch ++ "] " ++ fmtTime msg.ts ++ " | " ++
          displayNameOf (resolveUser up.usersInfo cache msg.user).1 ++ " | " ++
          msg.text ++ rest) := by
  constructor
  · intro hjoin
    constructor
    · intro t
      simp [processMessageStr, hjoin]
    · have h := processMessageStr_shape up fmtTime cache ch msg
      rw [if_pos hjoin] at h
      exact h
  · intro hother
    have h := processMessageStr_shape up fmtTime cache ch msg
    rw [if_neg hother] at h
    exact h

/-- C6 witness: a concrete channel_join message rendered by the part_001
handler carries the synthesized join line, not its raw text. -/
theorem processMessageStr_channel_join_spec_witness :
    ∃ rest : String,
      (processMessageStr c6up (fun s => s) [] "C1" c6msg).1 =
        "[" ++ "C1" ++ "] " ++ (fun s => s) c6msg.ts ++ " | " ++
          displayNameOf (resolveUser c6up.usersInfo [] c6msg.user).1 ++ " | " ++
          (displayNameOf (resolveUser c6up.usersInfo [] c6msg.user).1 ++
            " has joined the channel") ++ rest :=
  ((processMessageStr_channel_join_spec c6up (fun s => s) [] "C1" c6msg).1 rfl).2

/- ===== Claim C4: multi-channel crawl isolation ===== -/

/-- Per-channel result object of the part_001 /crawl fan-out: on success
the message strings with no error, on failure the caught error message and
an empty message list. -/
structure ChannelResult where
  channelId : String
  error : Option String
  messages : List String
  deriving DecidableEq

/-- The message fan-out of one channel, joined in input order while
threading the shared cache. -/
def mapThread (f : Cache → RawMessage → String × Cache) :
    Cache → List RawMessage → List String × Cache
  | cache, [] => ([], cache)
  | cache, m :: ms =>
    let r := f cache m
    let rest := mapThread f r.2 ms
    (r.1 :: rest.1, rest.2)

/-- One arm of the channel fan-out: fetch the history; a failing fetch is
caught and reported as a per-channel error entry with an empty message
list; a successful fetch maps every message through the per-message
normalizer. -/
def crawlOneChannel (up : Upstream) (fmtTime : String → String) (cache : Cache)
    (channelId : String) : ChannelResult × Cache :=
  match up.history channelId with
  | .error e => (⟨channelId, some e, []⟩, cache)
  | .ok msgs =>
    let r := mapThread (fun c m => processMessageStr up fmtTime c channelId m) cache msgs
    (⟨channelId, none, r.1⟩, r.2)

/-- The channel fan-out of the part_001 /crawl handler, joined in request
order. -/
def crawlChannels (up : Upstream) (fmtTime : String → String) :
    Cache → List String → List ChannelResult × Cache
  | cache, [] => ([], cache)
  | cache, id :: ids =>
    let r := crawlOneChannel up fmtTime cache id
    let rest := crawlChannels up fmtTime r.2 ids
    (r.1 :: rest.1, rest.2)

/-- The final reduce: an object keyed by channelId holding each message
list (the error field of the intermediate result is not copied over). -/
def groupMessages (results : List ChannelResult) : List (String × List String) :=
  results.map (fun r => (r.channelId, r.messages))

theorem mapThread_length (f : Cache → RawMessage → String × Cache)
    (cache : Cache) (ms : List RawMessage) :
    (mapThread f cache ms).1.length = ms.length := by
  induction ms generalizing cache with
  | nil => rfl
  | cons m ms ih => simp [mapThread, ih]

theorem crawlOneChannel_channelId (up : Upstream) (fmtTime : String → String)
    (cache : Cache) (id : String) :
    (crawlOneChannel up fmtTime cache id).1.channelId = id := by
  cases h : up.history id <;> simp [crawlOneChannel, h]

theorem crawlOneChannel_spec (up : Upstream) (fmtTime : String → String)
    (cache : Cache) (id : String) :
    (∀ e, up.history id = .error e →
      (crawlOneChannel up fmtTime cache id).1.error = some e ∧
      (crawlOneChannel up fmtTime cache id).1.messages = []) ∧
    (∀ msgs, up.history id = .ok msgs →
      (crawlOneChannel up fmtTime cache id).1.error = none ∧
      (crawlOneChannel up fmtTime cache id).1.messages.length = msgs.length) := by
  constructor
  · intro e he
    simp [crawlOneChannel, he]
  · intro msgs hm
    simp [crawlOneChannel, hm, mapThread_length]

theorem groupMessages_fst (results : List ChannelResult) :
    (groupMessages results).map Prod.fst = results.map (fun r => r.channelId) := by
  simp [groupMessages, List.map_map]

/-- C4: the multi-channel crawl is total (every caught failure becomes
data), returns one entry per requested channel id in request order, both
in the per-channel results and in the grouped response object; a failing
channel carries the recorded error and an empty message list, a
succeeding channel carries no error and one output line per upstream
message. -/
theorem crawl_isolates_channel_failures (up : Upstream) (fmtTime : String → String)
    (cache : Cache) (ids : List String) :
    ((crawlChannels up fmtTime cache ids).1.map (fun r => r.channelId) = ids) ∧
    ((groupMessages (crawlChannels up fmtTime cache ids).1).map Prod.fst = ids) ∧
    (∀ r ∈ (crawlChannels up fmtTime cache ids).1,
      (∀ e, up.history r.channelId = .error e →
        r.error = some e ∧ r.messages = []) ∧
      (∀ msgs, up.history r.channelId = .ok msgs →
        r.error = none ∧ r.messages.length = msgs.length)) := by
  have hmain : ∀ (ids : List String) (cache : Cache),
      ((crawlChannels up fmtTime cache ids).1.map (fun r => r.channelId) = ids) ∧
      (∀ r ∈ (crawlChannels up fmtTime cache ids).1,
        (∀ e, up.history r.channelId = .error e →
          r.error = some e ∧ r.messages = []) ∧
        (∀ msgs, up.history r.channelId = .ok msgs →
          r.error = none ∧ r.messages.length = msgs.length)) := by
    intro ids
    induction ids with
    | nil =>
      intro cache
      exact ⟨rfl, by intro r hr; cases hr⟩
    | cons id rest ih =>
      intro cache
      obtain ⟨ih1, ih2⟩ := ih (crawlOneChannel up fmtTime cache id).2
      constructor
      · simp [crawlChannels, crawlOneChannel_channelId, ih1]
      · intro r hr
        simp only [crawlChannels, List.mem_cons] at hr
        rcases hr with hr | hr
        · subst hr
          have hid := crawlOneChannel_channelId up fmtTime cache id
          rw [hid]
          exact crawlOneChannel_spec up fmtTime cache id
        · exact ih2 r hr
  refine ⟨(hmain ids cache).1, ?_, (hmain ids cache).2⟩
  rw [groupMessages_fst]
  exact (hmain ids cache).1

/-- Fixed upstream for the C4 witness: history fails for channel CF and
succeeds with one plain message for channel CO. -/
def c4up : Upstream :=
  ⟨fun _ => .notOk "user_not_found",
   fun _ => .error "x",
   fun ch => if ch = "CF" then .error "boom"
     else .ok [⟨"U1", "hello", "5.6", 0, "", ""⟩]⟩

/-- C4 witness: crawling a failing and a succeeding channel returns both
entries, the failing one with the recorded error and no messages, the
succeeding one with its message line. -/
theorem crawl_isolates_channel_failures_witness :
    ((crawlChannels c4up (fun s => s) [] ["CF", "CO"]).1.map
      (fun r => r.channelId) = ["CF", "CO"]) ∧
    ((crawlChannels c4up (fun s => s) [] ["CF", "CO"]).1.headD
        ⟨"", none, []⟩).error = some "boom" ∧
    ((crawlChannels c4up (fun s => s) [] ["CF", "CO"]).1.headD
        ⟨"", none, []⟩).messages = [] ∧
    (((crawlChannels c4up (fun s => s) [] ["CF", "CO"]).1.getD 1
        ⟨"", none, []⟩).messages.length = 1) := by
  have h := crawl_isolates_channel_failures c4up (fun s => s) [] ["CF", "CO"]
  have hmemF : ((crawlChannels c4up (fun s => s) [] ["CF", "CO"]).1.headD
      ⟨"", none, []⟩) ∈ (crawlChannels c4up (fun s => s) [] ["CF", "CO"]).1 := by
    decide
  have hmemO : ((crawlChannels c4up (fun s => s) [] ["CF", "CO"]).1.getD 1
      ⟨"", none, []⟩) ∈ (crawlChannels c4up (fun s => s) [] ["CF", "CO"]).1 := by
    decide
  have hF := (h.2.2 _ hmemF).1 "boom" rfl
  have hO := (h.2.2 _ hmemO).2 [⟨"U1", "hello", "5.6", 0, "", ""⟩] rfl
  exact ⟨h.1, hF.1, hF.2, hO.2⟩

/- ===== Claim C10: history fetch parameter defaulting ===== -/

/-- Whitespace skipped by the JS parseInt builtin (common ASCII cases). -/
def isJsWhitespace (c : Char) : Bool :=
  c = ' ' || c = '\t' || c = '\n' || c = '\r' || c = '\x0b' || c = '\x0c'

/-- Decimal digit value. -/
def decDigitVal (c : Char) : Option Nat :=
  if '0' ≤ c ∧ c ≤ '9' then some (c.toNat - '0'.toNat) else none

/-- Hexadecimal digit value. -/
def hexDigitVal (c : Char) : Option Nat :=
  if '0' ≤ c ∧ c ≤ '9' then some (c.toNat - '0'.toNat)
  else if 'a' ≤ c ∧ c ≤ 'f' then some (c.toNat - 'a'.toNat + 10)
  else if 'A' ≤ c ∧ c ≤ 'F' then some (c.toNat - 'A'.toNat + 10)
  else none

/-- Accumulate leading digits, stopping at the first non-digit. -/
def parseLoop (dval : Char → Option Nat) (base : Nat) (acc : Nat) :
    List Char → Nat
  | [] => acc
  | c :: cs =>
    match dval c with
    | some d => parseLoop dval base (acc * base + d) cs
    | none => acc

/-- Parse a nonempty digit prefix; none when the first character is not a
digit (the NaN case of parseInt). -/
def parseDigits (dval : Char → Option Nat) (base : Nat) : List Char → Option Nat
  | [] => none
  | c :: cs =>
    match dval c with
    | some d => some (parseLoop dval base d cs)
    | none => none

/-- Digits of the JS parseInt builtin with no radix argument: an 0x or 0X
prefix switches to base 16, otherwise base 10. -/
def jsParseUnsigned : List Char → Option Nat
  | '0' :: 'x' :: rest => parseDigits hexDigitVal 16 rest
  | '0' :: 'X' :: rest => parseDigits hexDigitVal 16 rest
  | cs => parseDigits decDigitVal 10 cs

/-- The JS parseInt builtin on a string: skip leading whitespace, read an
optional sign, then the digit prefix; none models NaN. -/
def jsParseInt (s : String) : Option Int :=
  match s.data.dropWhile isJsWhitespace with
  | '-' :: rest => (jsParseUnsigned rest).map (fun n => -(n : Int))
  | '+' :: rest => (jsParseUnsigned rest).map (fun n => (n : Int))
  | cs => (jsParseUnsigned cs).map (fun n => (n : Int))

/-- parseInt applied to a possibly absent query parameter; an absent value
coerces to the string undefined, which has no digit prefix, hence NaN. -/
def jsParseIntOpt : Option String → Option Int
  | some s => jsParseInt s
  | none => none

/-- The limit actually forwarded to conversations.history:
parseInt(limit) or-else 100, where both NaN and 0 are falsy. -/
def effectiveLimit (limit : Option String) : Int :=
  match jsParseIntOpt limit with
  | some n => if n = 0 then 100 else n
  | none => 100

/-- The inclusive flag actually forwarded: strict equality of the query
parameter with the literal string true. -/
def inclusiveFlag : Option String → Bool
  | some s => s == "true"
  | none => false

/-- C10: the forwarded limit is parseInt(limit) exactly when that parses
to a nonzero number and 100 when it parses to 0, fails to parse, or is
absent; the forwarded inclusive flag is true exactly for the literal
string true. -/
theorem crawl_filter_defaults_spec :
    (∀ (q : String) (n : Int), jsParseInt q = some n → n ≠ 0 →
      effectiveLimit (some q) = n) ∧
    (∀ q : String, jsParseInt q = some 0 → effectiveLimit (some q) = 100) ∧
    (∀ q : String, jsParseInt q = none → effectiveLimit (some q) = 100) ∧
    effectiveLimit none = 100 ∧
    (∀ v : Option String, inclusiveFlag v = true ↔ v = some "true") := by
  refine ⟨?_, ?_, ?_, rfl, ?_⟩
  · intro q n h hn
    simp [effectiveLimit, jsParseIntOpt, h, hn]
  · intro q h
    simp [effectiveLimit, jsParseIntOpt, h]
  · intro q h
    simp [effectiveLimit, jsParseIntOpt, h]
  · intro v
    cases v with
    | none => simp [inclusiveFlag]
    | some s => simp [inclusiveFlag]

/-- C10 witness: a numeric, a zero, an alphabetic and an absent limit, and
the literal inclusive flag. -/
theorem crawl_filter_defaults_spec_witness :
    effectiveLimit (some "50") = 50 ∧
    effectiveLimit (some "0") = 100 ∧
    effectiveLimit (some "abc") = 100 ∧
    effectiveLimit none = 100 ∧
    inclusiveFlag (some "true") = true := by
  have h := crawl_filter_defaults_spec
  exact ⟨h.1 "50" 50 rfl (by decide), h.2.1 "0" rfl, h.2.2.1 "abc" rfl,
    h.2.2.2.1, (h.2.2.2.2 (some "true")).2 rfl⟩

/- ===== Claim C9: GET /users filtering (modelled from the spec) ===== -/

/-- Lowercase a character code (ASCII letters; enough for the model). -/
def lowerN (n : Nat) : Nat := if 65 ≤ n ∧ n ≤ 90 then n + 32 else n

/-- The character codes of a string, lowercased. -/
def lowerCodes (s : String) : List Nat := s.data.map (fun c => lowerN c.toNat)

/-- Boolean prefix test on code lists. -/
def isPrefixL : List Nat → List Nat → Bool
  | [], _ => true
  | _ :: _, [] => false
  | a :: as, b :: bs => a == b && isPrefixL as bs

/-- Boolean contiguous substring test on code lists (String.includes). -/
def containsL (needle : List Nat) : List Nat → Bool
  | [] => isPrefixL needle []
  | c :: t => isPrefixL needle (c :: t) || containsL needle t

/-- Case-insensitive substring test: lowercase both sides, then check
inclusion of the needle in the haystack. -/
def containsCI (hay needle : String) : Bool :=
  containsL (lowerCodes needle) (lowerCodes hay)

/-- Modelled from the spec: the GET /users handler is absent from the
provided sources (only /users/:channelId variants appear), so its filter
follows the spec sentence: profiles filtered case-insensitively by
substring match on email/name/real_name/display_name, the email parameter
against the email field and the name parameter against the three name
fields; an absent parameter filters nothing. -/
def matchesUserQuery (emailQ nameQ : Option String) (u : UserProfile) : Bool :=
  (match emailQ with
    | none => true
    | some q => containsCI (u.email.getD "") q) &&
  (match nameQ with
    | none => true
    | some q => containsCI u.name q || containsCI u.real_name q ||
        containsCI u.display_name q)

/-- Modelled from the spec: the GET /users response array, the profile
list filtered by matchesUserQuery. -/
def filterUsers (emailQ nameQ : Option String) (users : List UserProfile) :
    List UserProfile :=
  users.filter (fun u => matchesUserQuery emailQ nameQ u)

theorem isPrefixL_iff (n : List Nat) : ∀ h : List Nat,
    isPrefixL n h = true ↔ ∃ t, h = n ++ t := by
  induction n with
  | nil =>
    intro h
    simp [isPrefixL]
  | cons a as ih =>
    intro h
    cases h with
    | nil => simp [isPrefixL]
    | cons b bs =>
      simp only [isPrefixL, Bool.and_eq_true, beq_iff_eq, ih bs,
        List.cons_append, List.cons.injEq]
      constructor
      · rintro ⟨hab, t, ht⟩
        exact ⟨t, hab.symm, ht⟩
      · rintro ⟨t, hba, ht⟩
        exact ⟨hba.symm, t, ht⟩

theorem containsL_iff (n : List Nat) : ∀ h : List Nat,
    containsL n h = true ↔ ∃ pre post, h = pre ++ n ++ post := by
  intro h
  induction h with
  | nil =>
    simp only [containsL, isPrefixL_iff]
    constructor
    · rintro ⟨t, ht⟩
      exact ⟨[], t, by simpa using ht⟩
    · rintro ⟨pre, post, hpp⟩
      refine ⟨post, ?_⟩
      rcases List.append_eq_nil.mp (List.append_eq_nil.mp hpp.symm).1 with ⟨h1, h2⟩
      simp only [hpp]
      simp [h1, h2]
    | cons c t ih =>
    simp only [containsL, Bool.or_eq_true, isPrefixL_iff, ih]
    constructor
    · rintro (⟨tl, htl⟩ | ⟨pre, post, hpp⟩)
      · exact ⟨[], tl, by simpa using htl⟩
      · exact ⟨c :: pre, post, by simp [hpp]⟩
    · rintro ⟨pre, post, hpp⟩
      cases pre with
      | nil =>
        left
        exact ⟨post, by simpa using hpp⟩
      | cons p ps =>
        right
        rw [List.cons_append, List.cons_append] at hpp
        obtain ⟨hc, ht⟩ := List.cons_eq_cons.mp hpp
        exact ⟨ps, post, by simp [ht]⟩

/-- C9: the GET /users filter keeps exactly the profiles matching the
query (membership characterization), preserves the upstream order
(sublist), and its matching relation is the case-insensitive contiguous
substring relation on lowercased character codes. -/
theorem usersEndpoint_filter_spec (emailQ nameQ : Option String)
    (users : List UserProfile) :
    (∀ u : UserProfile, u ∈ filterUsers emailQ nameQ users ↔
      u ∈ users ∧ matchesUserQuery emailQ nameQ u = true) ∧
    List.Sublist (filterUsers emailQ nameQ users) users ∧
    (∀ hay needle : String, containsCI hay needle = true ↔
      ∃ pre post, lowerCodes hay = pre ++ lowerCodes needle ++ post) := by
  refine ⟨?_, ?_, ?_⟩
  · intro u
    simp [filterUsers, List.mem_filter]
  · exact List.filter_sublist _
  · intro hay needle
    exact containsL_iff (lowerCodes needle) (lowerCodes hay)

/-- C9 witness: a mixed-case needle is found inside a mixed-case email. -/
theorem usersEndpoint_filter_spec_witness :
    containsCI "Alice@Example.COM" "example.com" = true := by
  have h := (usersEndpoint_filter_spec none none []).2.2
    "Alice@Example.COM" "example.com"
  exact h.2 ⟨lowerCodes "Alice@", [], by decide⟩

end SlackCrawl
